import Mathlib

/-!
Verification of the Nova relay server (src/main.py) against its
natural-language specification.

The embedding below models, directly from the source:
  * JSON values as they appear in request bodies and provider responses
    (`JVal`), with Python truthiness (`truthy`) and Python `x or y`
    (`pyOr`);
  * the temp-directory filesystem as an association list from paths to
    byte contents (`FSt`), with write/remove/lookup operations;
  * `os.remove`, which raises when the file is missing or when the
    modelled removal-failure policy `rmFail` says the OS rejects the
    deletion (`osRemove`); an exception that escapes a handler is
    `HOut.raised`;
  * the helpers `save_uploaded_file` and `text_to_speech_file`, and the
    four endpoint handlers `stt`, `chat`, `tts`, `nova_pipeline`.
External providers (OpenAI transcription and chat completion, gTTS
synthesis) are opaque oracles passed to the handlers as functions
returning `Except`; `uuid.uuid4().hex` tokens are explicit arguments.
Provider responses are modelled as JSON mappings (the `isinstance(resp,
dict)` branch of the source; the attribute-object branch exists only for
a non-mapping client object and is outside the claims).
-/

set_option autoImplicit false

/-- JSON values occurring in bodies and provider responses.  Numbers are
modelled as integers; arrays and nested objects play no role in any
endpoint's logic. -/
inductive JVal where
  | jnull : JVal
  | jbool : Bool → JVal
  | jnum : Int → JVal
  | jstr : String → JVal
deriving DecidableEq

/-- Python truthiness of a JSON value (`bool(x)`). -/
def truthy : JVal → Bool
  | JVal.jnull => false
  | JVal.jbool b => b
  | JVal.jnum n => n != 0
  | JVal.jstr s => s != ""

/-- Python `a or b` restricted to JSON values. -/
def pyOr (a b : JVal) : JVal :=
  if truthy a then a else b

/-- Membership-test for a space character, as stripped by `str.strip()`. -/
def isSpaceChar (c : Char) : Bool :=
  (c == ' ') || (c == '\t') || (c == '\n') || (c == '\r')

/-- Drop leading whitespace characters from a character list. -/
def dropLeading : List Char → List Char
  | [] => []
  | c :: rest => if isSpaceChar c then dropLeading rest else c :: rest

/-- Python `str.strip()`: remove leading and trailing whitespace. -/
def pyStrip (s : String) : String :=
  String.mk ((dropLeading ((dropLeading s.data).reverse)).reverse)

/-- Python `str.lower()` (ASCII fragment, as used on file extensions). -/
def lowerStr (s : String) : String :=
  String.mk (s.data.map Char.toLower)

/-- Lookup in an association list with string keys (Python `dict`
access; also used for the filesystem and the multipart field map). -/
def assocLookup {α : Type} : List (String × α) → String → Option α
  | [], _ => none
  | (k, v) :: rest, key => if k = key then some v else assocLookup rest key

/-- Python `dict.get(key, dflt)` on a JSON object. -/
def pyGet (data : List (String × JVal)) (key : String) (dflt : JVal) : JVal :=
  (assocLookup data key).getD dflt

/-- Filesystem paths. -/
abbrev FPath := String

/-- File contents (opaque byte strings). -/
abbrev Bytes := String

/-- The temp-directory filesystem: a finite map from paths to contents. -/
abbrev FSt := List (FPath × Bytes)

/-- Read a file's contents. -/
def fsGet : FSt → FPath → Option Bytes
  | [], _ => none
  | (q, b) :: rest, p => if q = p then some b else fsGet rest p

/-- Does a path exist on disk? -/
def fsHas (fs : FSt) (p : FPath) : Bool :=
  (fsGet fs p).isSome

/-- Delete every entry at a path (`os.remove`'s effect when it succeeds). -/
def fsRemove : FSt → FPath → FSt
  | [], _ => []
  | (q, b) :: rest, p => if q = p then fsRemove rest p else (q, b) :: fsRemove rest p

/-- Create or overwrite a file (`f.save(path)` / `tts.save(path)`). -/
def fsWrite (fs : FSt) (p : FPath) (b : Bytes) : FSt :=
  (p, b) :: fsRemove fs p

/-- Modelled `os.remove(p)`: raises `FileNotFoundError` when the path is
absent, raises an `OSError` when the removal-failure policy `rmFail`
rejects the deletion, and otherwise deletes the file. -/
def osRemove (rmFail : FPath → Bool) (fs : FSt) (p : FPath) : Except String FSt :=
  if fsHas fs p = false then Except.error "FileNotFoundError"
  else if rmFail p = true then Except.error "OSError while deleting"
  else Except.ok (fsRemove fs p)

/-- One part of a multipart/form-data request: the client-declared
filename and the uploaded bytes. -/
structure FilePart where
  filename : String
  content : Bytes
deriving DecidableEq

/-- A multipart request: field name to file part (`request.files`). -/
structure MultipartReq where
  files : List (String × FilePart)
deriving DecidableEq

/-- HTTP response bodies: a JSON object (`jsonify`) or a binary file
(`send_file`). -/
inductive Body where
  | jsonObj : List (String × JVal) → Body
  | file : Bytes → Body
deriving DecidableEq

/-- An HTTP response: status code, body, extra headers. -/
structure Response where
  status : Nat
  body : Body
  headers : List (String × String)
deriving DecidableEq

/-- Outcome of running a handler: an HTTP response, or an exception that
escaped the handler (which Flask turns into a generic 500 error page,
not one of the handler's JSON responses). -/
inductive HOut where
  | resp : Response → HOut
  | raised : String → HOut
deriving DecidableEq

/-- The JSON error body shape used by all handlers:
a machine-readable kind plus a human-readable detail. -/
def errBody (e d : String) : Body :=
  Body.jsonObj [("error", JVal.jstr e), ("detail", JVal.jstr d)]

/-- The shared temp directory (`tempfile.gettempdir()`). -/
def UPLOAD_DIR : FPath := "/tmp"

/-- Model of `os.path.join(dir, name)` for an absolute dir and a relative
basename, as used at both call sites in the source. -/
def pathJoin (d name : String) : FPath :=
  d ++ "/" ++ name

/-- Characters after the last `.` of a character list
(`rsplit(".", 1)[-1]` when a dot is present). -/
def afterLastDot : List Char → List Char
  | [] => []
  | c :: rest =>
    if rest.contains '.' then afterLastDot rest
    else if c = '.' then rest
    else afterLastDot rest

/-- Extension extraction from `save_uploaded_file`, line 27 of the
source: lowercased substring after the last dot, or the empty string
when the filename has no dot. -/
def extOf (filename : String) : String :=
  if filename.data.contains '.' then
    lowerStr (String.mk (afterLastDot filename.data))
  else
    ""

/-- Helper `save_uploaded_file` (source lines 15-32): validate the
multipart field, the filename and (optionally) the extension, then write
the bytes to a fresh token-prefixed path in the shared temp directory.
The `uuid.uuid4().hex` value is the explicit argument `tok`; the `None`
and `[]` cases of `allowed_exts` are both falsy and are modelled
uniformly by the empty list. -/
def save_uploaded_file (req : MultipartReq) (fieldName : String)
    (allowedExts : List String) (tok : String) (fs : FSt) :
    Except String (FPath × FSt) :=
  match assocLookup req.files fieldName with
  | none => Except.error "No file field in request"
  | some f =>
    if f.filename = "" then Except.error "Empty filename"
    else if allowedExts ≠ [] ∧ extOf f.filename ∉ allowedExts then
      Except.error ("Extension not allowed: " ++ extOf f.filename)
    else
      Except.ok (pathJoin UPLOAD_DIR (tok ++ "_" ++ f.filename),
        fsWrite fs (pathJoin UPLOAD_DIR (tok ++ "_" ++ f.filename)) f.content)

/-- Helper `text_to_speech_file` (source lines 34-43): build the output
name `pfx_tok.mp3` in the temp directory, invoke the synthesis provider
(gTTS) on text and language, and write the MP3 bytes there.  On a
provider error nothing is written.  Returns (path, suggested name, new
filesystem). -/
def text_to_speech_file (synth : JVal → JVal → Except String Bytes)
    (tok : String) (text lang : JVal) (pfx : String) (fs : FSt) :
    Except String (FPath × String × FSt) :=
  match synth text lang with
  | Except.error e => Except.error e
  | Except.ok b =>
    Except.ok (pathJoin UPLOAD_DIR (pfx ++ "_" ++ tok ++ ".mp3"),
      pfx ++ "_" ++ tok ++ ".mp3",
      fsWrite fs (pathJoin UPLOAD_DIR (pfx ++ "_" ++ tok ++ ".mp3")) b)

/-- Transcript extraction in `/stt` (source lines 70-72, mapping
response branch): take the `text` entry; when it is absent or falsy,
fall back to the raw `transcript` entry (which is `None`, i.e. JSON
null, when absent). -/
def stt_extract (d : List (String × JVal)) : JVal :=
  if truthy ((assocLookup d "text").getD JVal.jnull) then
    (assocLookup d "text").getD JVal.jnull
  else
    (assocLookup d "transcript").getD JVal.jnull

/-- Transcript extraction in `/nova` (source line 156):
`resp.get("text") or resp.get("transcript") or ""`. -/
def nova_extract (d : List (String × JVal)) : JVal :=
  pyOr (pyOr ((assocLookup d "text").getD JVal.jnull)
      ((assocLookup d "transcript").getD JVal.jnull))
    (JVal.jstr "")

/-- Endpoint `/stt` (source lines 47-78).  `transcribe` is the
transcription provider applied to the saved file's bytes; `tok` is the
upload token; `rmFail` models which `os.remove` calls the OS rejects.
None of the three `os.remove` sites in this handler guards against a
deletion error, so such an error escapes the handler. -/
def stt (req : MultipartReq) (apiKey : String)
    (transcribe : Bytes → Except String (List (String × JVal)))
    (tok : String) (rmFail : FPath → Bool) (fs : FSt) : HOut × FSt :=
  match save_uploaded_file req "file" [] tok fs with
  | Except.error e => (HOut.resp ⟨400, errBody "upload_failed" e, []⟩, fs)
  | Except.ok (audio_path, fs1) =>
    if apiKey = "" then
      match osRemove rmFail fs1 audio_path with
      | Except.error m => (HOut.raised m, fs1)
      | Except.ok fs2 =>
        (HOut.resp ⟨500,
          errBody "no_api_key" "OPENAI_API_KEY not configured on server.", []⟩, fs2)
    else
      match transcribe ((fsGet fs1 audio_path).getD "") with
      | Except.error e =>
        match osRemove rmFail fs1 audio_path with
        | Except.error m => (HOut.raised m, fs1)
        | Except.ok fs2 =>
          (HOut.resp ⟨500, errBody "transcription_failed" e, []⟩, fs2)
      | Except.ok d =>
        match osRemove rmFail fs1 audio_path with
        | Except.error m => (HOut.raised m, fs1)
        | Except.ok fs2 =>
          (HOut.resp ⟨200, Body.jsonObj [("text", stt_extract d)], []⟩, fs2)

/-- Endpoint `/chat` (source lines 80-109).  `body` is the parsed JSON
body: `none` models a missing or unparsable body (`get_json(force=True,
silent=True)` yields `None`, replaced by the empty dict).  `chatP` is
the chat-completion provider applied to (system message, user message,
max_tokens); it returns the first choice's message content. -/
def chat (body : Option (List (String × JVal))) (apiKey : String)
    (chatP : JVal → JVal → Nat → Except String String) (fs : FSt) : HOut × FSt :=
  if pyGet (body.getD []) "text" (JVal.jstr "") = JVal.jstr "" then
    (HOut.resp ⟨400, Body.jsonObj [("error", JVal.jstr "no_text")], []⟩, fs)
  else if apiKey = "" then
    (HOut.resp ⟨500, errBody "no_api_key" "OPENAI_API_KEY not configured.", []⟩, fs)
  else
    match chatP
        (pyGet (body.getD []) "system"
          (JVal.jstr "You are Nova, a calm and friendly AI assistant."))
        (pyGet (body.getD []) "text" (JVal.jstr "")) 512 with
    | Except.error e => (HOut.resp ⟨500, errBody "chat_failed" e, []⟩, fs)
    | Except.ok content =>
      (HOut.resp ⟨200, Body.jsonObj [("reply", JVal.jstr (pyStrip content))], []⟩, fs)

/-- Endpoint `/tts` (source lines 111-134).  `synth` is the synthesis
provider (gTTS) applied to (text, lang); `tok` is the output-name
token.  The handler never consults the API key, and its `finally`
block is empty: the MP3 is left on disk. -/
def tts (body : Option (List (String × JVal)))
    (synth : JVal → JVal → Except String Bytes)
    (tok : String) (fs : FSt) : HOut × FSt :=
  if truthy (pyGet (body.getD []) "text" (JVal.jstr "")) = false then
    (HOut.resp ⟨400, Body.jsonObj [("error", JVal.jstr "no_text")], []⟩, fs)
  else
    match text_to_speech_file synth tok (pyGet (body.getD []) "text" (JVal.jstr ""))
        (pyGet (body.getD []) "lang" (JVal.jstr "en")) "g" fs with
    | Except.error e => (HOut.resp ⟨500, errBody "tts_failed" e, []⟩, fs)
    | Except.ok (p, name, fs1) =>
      (HOut.resp ⟨200, Body.file ((fsGet fs1 p).getD ""),
        [("Content-Type", "audio/mpeg"), ("X-Reply-Filename", name)]⟩, fs1)

/-- The `finally` block of `/nova` (source lines 176-181): if the
uploaded file still exists, try removing it, and swallow any removal
error. -/
def cleanupSwallow (rmFail : FPath → Bool) (fs : FSt) (p : FPath) : FSt :=
  if fsHas fs p then
    match osRemove rmFail fs p with
    | Except.ok f => f
    | Except.error _ => fs
  else fs

/-- The fixed system prompt of the `/nova` chat step (source line 158). -/
def novaSystem : JVal :=
  JVal.jstr "You are Nova, a smart, calm, and friendly AI assistant."

/-- The body of the `try` block of `/nova` (source lines 152-173):
transcription, chat, synthesis and the success response, with any step's
error mapped to a 500 `pipeline_failed` response by the `except` clause
(source lines 174-175).  Returns the response together with the
filesystem as the `try`/`except` leaves it. -/
def novaAttempt (transcribe : Bytes → Except String (List (String × JVal)))
    (chatP : JVal → JVal → Nat → Except String String)
    (synth : JVal → JVal → Except String Bytes)
    (synthTok : String) (audio_path : FPath) (fs1 : FSt) : Response × FSt :=
  match transcribe ((fsGet fs1 audio_path).getD "") with
  | Except.error e => (⟨500, errBody "pipeline_failed" e, []⟩, fs1)
  | Except.ok d =>
    match chatP novaSystem (nova_extract d) 512 with
    | Except.error e => (⟨500, errBody "pipeline_failed" e, []⟩, fs1)
    | Except.ok content =>
      match text_to_speech_file synth synthTok (JVal.jstr (pyStrip content))
          (JVal.jstr "en") "reply" fs1 with
      | Except.error e => (⟨500, errBody "pipeline_failed" e, []⟩, fs1)
      | Except.ok (p, name, fs2) =>
        (⟨200, Body.file ((fsGet fs2 p).getD ""),
          [("Content-Type", "audio/mpeg"), ("X-Reply-Filename", name)]⟩, fs2)

/-- Endpoint `/nova` (source lines 136-181): upload, credential check
(whose `os.remove` is outside the `try` and unguarded), then the
`try`/`except`/`finally` pipeline.  `upTok` and `synthTok` are the two
uuid tokens consumed. -/
def nova_pipeline (req : MultipartReq) (apiKey : String)
    (transcribe : Bytes → Except String (List (String × JVal)))
    (chatP : JVal → JVal → Nat → Except String String)
    (synth : JVal → JVal → Except String Bytes)
    (upTok synthTok : String) (rmFail : FPath → Bool) (fs : FSt) : HOut × FSt :=
  match save_uploaded_file req "file" [] upTok fs with
  | Except.error e => (HOut.resp ⟨400, errBody "upload_failed" e, []⟩, fs)
  | Except.ok (audio_path, fs1) =>
    if apiKey = "" then
      match osRemove rmFail fs1 audio_path with
      | Except.error m => (HOut.raised m, fs1)
      | Except.ok fs2 =>
        (HOut.resp ⟨500, errBody "no_api_key" "OPENAI_API_KEY not configured.", []⟩, fs2)
    else
      (HOut.resp (novaAttempt transcribe chatP synth synthTok audio_path fs1).1,
        cleanupSwallow rmFail
          (novaAttempt transcribe chatP synth synthTok audio_path fs1).2 audio_path)

theorem fsGet_write_self (fs : FSt) (p : FPath) (b : Bytes) :
    fsGet (fsWrite fs p b) p = some b := by
  simp [fsWrite, fsGet]

theorem fsHas_write_self (fs : FSt) (p : FPath) (b : Bytes) :
    fsHas (fsWrite fs p b) p = true := by
  simp [fsHas, fsGet_write_self]

theorem fsGet_remove_self (fs : FSt) (p : FPath) :
    fsGet (fsRemove fs p) p = none := by
  induction fs with
  | nil => simp [fsRemove, fsGet]
  | cons e rest ih =>
    by_cases h : e.1 = p
    · simpa [fsRemove, h] using ih
    · simpa [fsRemove, h, fsGet] using ih

theorem fsHas_remove_self (fs : FSt) (p : FPath) :
    fsHas (fsRemove fs p) p = false := by
  simp [fsHas, fsGet_remove_self]

theorem fsGet_remove_ne (fs : FSt) (p q : FPath) (h : q ≠ p) :
    fsGet (fsRemove fs p) q = fsGet fs q := by
  induction fs with
  | nil => simp [fsRemove]
  | cons e rest ih =>
    by_cases he : e.1 = p
    · have hpq : p ≠ q := Ne.symm h
      simp [fsRemove, he, fsGet, hpq, ih]
    · simp [fsRemove, he, fsGet, h, ih]

theorem fsGet_write_ne (fs : FSt) (p q : FPath) (b : Bytes) (h : q ≠ p) :
    fsGet (fsWrite fs p b) q = fsGet fs q := by
  have hne : p ≠ q := fun hpq => h hpq.symm
  simp [fsWrite, fsGet, hne, fsGet_remove_ne fs p q h]

theorem osRemove_ok (rmFail : FPath → Bool) (fs : FSt) (p : FPath)
    (hh : fsHas fs p = true) (hr : rmFail p = false) :
    osRemove rmFail fs p = Except.ok (fsRemove fs p) := by
  simp [osRemove, hh, hr]

theorem cleanupSwallow_gone (rmFail : FPath → Bool) (fs : FSt) (p : FPath)
    (hr : rmFail p = false) :
    fsHas (cleanupSwallow rmFail fs p) p = false := by
  by_cases hh : fsHas fs p = true
  · simp [cleanupSwallow, hh, osRemove_ok rmFail fs p hh hr, fsHas_remove_self]
  · simp at hh
    simp [cleanupSwallow, hh]

theorem cleanupSwallow_get_ne (rmFail : FPath → Bool) (fs : FSt) (p q : FPath)
    (h : q ≠ p) :
    fsGet (cleanupSwallow rmFail fs p) q = fsGet fs q := by
  by_cases hh : fsHas fs p = true
  · by_cases hr : rmFail p = true
    · simp [cleanupSwallow, hh, osRemove, hr]
    · simp at hr
      simp [cleanupSwallow, hh, osRemove_ok rmFail fs p hh hr, fsGet_remove_ne fs p q h]
  · simp at hh
    simp [cleanupSwallow, hh]

theorem save_no_exts (req : MultipartReq) (fp : FilePart) (tok : String) (fs : FSt)
    (hf : assocLookup req.files "file" = some fp) (hn : fp.filename ≠ "") :
    save_uploaded_file req "file" [] tok fs =
      Except.ok (pathJoin UPLOAD_DIR (tok ++ "_" ++ fp.filename),
        fsWrite fs (pathJoin UPLOAD_DIR (tok ++ "_" ++ fp.filename)) fp.content) := by
  simp [save_uploaded_file, hf, hn]

theorem str_data_append (a b : String) : (a ++ b).data = a.data ++ b.data := rfl

theorem str_ext (a b : String) (h : a.data = b.data) : a = b := by
  cases a
  cases b
  exact congrArg String.mk h

theorem tok_sep_inj (t1 t2 f1 f2 : String) (hlen : t1.length = t2.length)
    (h : t1 ++ "_" ++ f1 = t2 ++ "_" ++ f2) : t1 = t2 ∧ f1 = f2 := by
  have hd : (t1.data ++ ['_']) ++ f1.data = (t2.data ++ ['_']) ++ f2.data :=
    congrArg String.data h
  have hl : t1.data.length = t2.data.length := hlen
  have hlen2 : (t1.data ++ ['_']).length = (t2.data ++ ['_']).length := by
    simp [hl]
  obtain ⟨h1, h2⟩ := List.append_inj hd hlen2
  have h3 : t1.data = t2.data := (List.append_inj h1 hl).1
  exact ⟨str_ext _ _ h3, str_ext _ _ h2⟩

theorem pathJoin_cancel (d n1 n2 : String) (h : pathJoin d n1 = pathJoin d n2) :
    n1 = n2 := by
  have hd : (d ++ "/").data ++ n1.data = (d ++ "/").data ++ n2.data :=
    congrArg String.data h
  exact str_ext _ _ (List.append_cancel_left hd)

/-- C6: on a successful upload, `save_uploaded_file` returns the path
obtained by joining the shared temp directory with the basename
`tok_filename` (the random unique token, a separating underscore, and
the original client-supplied filename), writes the uploaded bytes
there, and distinct equal-length tokens (as `uuid4().hex` values are)
always yield distinct paths, so concurrent uploads never collide. -/
theorem save_uploaded_fresh_path (req : MultipartReq) (fp : FilePart)
    (tok : String) (fs : FSt)
    (hf : assocLookup req.files "file" = some fp) (hn : fp.filename ≠ "") :
    save_uploaded_file req "file" [] tok fs =
      Except.ok (pathJoin UPLOAD_DIR (tok ++ "_" ++ fp.filename),
        fsWrite fs (pathJoin UPLOAD_DIR (tok ++ "_" ++ fp.filename)) fp.content)
  ∧ fsGet (fsWrite fs (pathJoin UPLOAD_DIR (tok ++ "_" ++ fp.filename)) fp.content)
      (pathJoin UPLOAD_DIR (tok ++ "_" ++ fp.filename)) = some fp.content
  ∧ (∀ tok2 fn2, tok.length = tok2.length → tok ≠ tok2 →
      pathJoin UPLOAD_DIR (tok ++ "_" ++ fp.filename) ≠
        pathJoin UPLOAD_DIR (tok2 ++ "_" ++ fn2)) := by
  refine ⟨save_no_exts req fp tok fs hf hn, fsGet_write_self _ _ _, ?_⟩
  intro tok2 fn2 hlen hne h
  exact hne (tok_sep_inj tok tok2 fp.filename fn2 hlen (pathJoin_cancel _ _ _ h)).1

theorem save_uploaded_fresh_path_w :
    save_uploaded_file ⟨[("file", ⟨"song.mp3", "B"⟩)]⟩ "file" [] "aaaa" [] =
      Except.ok (pathJoin UPLOAD_DIR ("aaaa" ++ "_" ++ "song.mp3"),
        fsWrite [] (pathJoin UPLOAD_DIR ("aaaa" ++ "_" ++ "song.mp3")) "B")
  ∧ fsGet (fsWrite [] (pathJoin UPLOAD_DIR ("aaaa" ++ "_" ++ "song.mp3")) "B")
      (pathJoin UPLOAD_DIR ("aaaa" ++ "_" ++ "song.mp3")) = some "B"
  ∧ pathJoin UPLOAD_DIR ("aaaa" ++ "_" ++ "song.mp3") ≠
      pathJoin UPLOAD_DIR ("bbbb" ++ "_" ++ "x.wav") := by
  have h := save_uploaded_fresh_path ⟨[("file", ⟨"song.mp3", "B"⟩)]⟩
    ⟨"song.mp3", "B"⟩ "aaaa" [] rfl (by decide)
  exact ⟨h.1, h.2.1, h.2.2 "bbbb" "x.wav" rfl (by decide)⟩

/-- C7: given a present file field with a non-empty filename and a
non-empty allow-list, the upload is rejected with the
disallowed-extension error exactly when the lowercased substring after
the filename's last dot (empty when there is no dot) is not in the
list. -/
theorem ext_allowlist_reject_iff (req : MultipartReq) (fp : FilePart)
    (exts : List String) (tok : String) (fs : FSt)
    (hf : assocLookup req.files "file" = some fp) (hn : fp.filename ≠ "")
    (hne : exts ≠ []) :
    (save_uploaded_file req "file" exts tok fs =
        Except.error ("Extension not allowed: " ++ extOf fp.filename))
      ↔ extOf fp.filename ∉ exts := by
  by_cases hmem : extOf fp.filename ∈ exts
  · simp [save_uploaded_file, hf, hn, hne, hmem]
  · simp [save_uploaded_file, hf, hn, hne, hmem]

theorem ext_allowlist_reject_iff_w :
    ((save_uploaded_file ⟨[("file", ⟨"virus.EXE", "X"⟩)]⟩ "file"
        ["wav", "mp3", "m4a"] "t" [] =
      Except.error ("Extension not allowed: " ++ extOf "virus.EXE"))
      ↔ extOf "virus.EXE" ∉ ["wav", "mp3", "m4a"])
  ∧ ((save_uploaded_file ⟨[("file", ⟨"Voice.WAV", "Y"⟩)]⟩ "file"
        ["wav", "mp3", "m4a"] "t" [] =
      Except.error ("Extension not allowed: " ++ extOf "Voice.WAV"))
      ↔ extOf "Voice.WAV" ∉ ["wav", "mp3", "m4a"]) :=
  ⟨ext_allowlist_reject_iff ⟨[("file", ⟨"virus.EXE", "X"⟩)]⟩ ⟨"virus.EXE", "X"⟩
      ["wav", "mp3", "m4a"] "t" [] rfl (by decide) (by decide),
   ext_allowlist_reject_iff ⟨[("file", ⟨"Voice.WAV", "Y"⟩)]⟩ ⟨"Voice.WAV", "Y"⟩
      ["wav", "mp3", "m4a"] "t" [] rfl (by decide) (by decide)⟩

/-- C5: a `/chat` request whose body is missing or unparsable (modelled
by `none`, since `get_json(force=True, silent=True)` returns `None`
instead of raising a parse error), or whose `text` entry is absent or
the empty string, is answered 400 `no_text`, for every credential
configuration and provider. -/
theorem chat_no_text_rejection (body : Option (List (String × JVal)))
    (apiKey : String) (chatP : JVal → JVal → Nat → Except String String) (fs : FSt)
    (h : body = none ∨ assocLookup (body.getD []) "text" = none ∨
      assocLookup (body.getD []) "text" = some (JVal.jstr "")) :
    chat body apiKey chatP fs =
      (HOut.resp ⟨400, Body.jsonObj [("error", JVal.jstr "no_text")], []⟩, fs) := by
  rcases h with h | h | h
  · subst h
    simp [chat, pyGet, assocLookup]
  · simp [chat, pyGet, h]
  · simp [chat, pyGet, h]

theorem chat_no_text_rejection_w :
    chat (some [("system", JVal.jstr "be brief")]) ""
      (fun _ _ _ => Except.ok "yo") [] =
      (HOut.resp ⟨400, Body.jsonObj [("error", JVal.jstr "no_text")], []⟩, []) :=
  chat_no_text_rejection (some [("system", JVal.jstr "be brief")]) ""
    (fun _ _ _ => Except.ok "yo") [] (Or.inr (Or.inl rfl))

/-- C10: the `/chat` handler reads no mutable state besides its inputs:
its response is independent of the filesystem (the only state shared
between requests), it leaves the filesystem unchanged, and a second
identical request against the same deterministic provider yields the
identical response. -/
theorem chat_stateless_idempotent (body : Option (List (String × JVal)))
    (apiKey : String) (chatP : JVal → JVal → Nat → Except String String)
    (fs fs2 : FSt) :
    (chat body apiKey chatP fs).1 = (chat body apiKey chatP fs2).1
  ∧ (chat body apiKey chatP ((chat body apiKey chatP fs).2)).1 =
      (chat body apiKey chatP fs).1
  ∧ (chat body apiKey chatP fs).2 = fs := by
  by_cases h1 : pyGet (body.getD []) "text" (JVal.jstr "") = JVal.jstr ""
  · simp [chat, h1]
  · by_cases h2 : apiKey = ""
    · simp [chat, h1, h2]
    · cases hc : chatP
          (pyGet (body.getD []) "system"
            (JVal.jstr "You are Nova, a calm and friendly AI assistant."))
          (pyGet (body.getD []) "text" (JVal.jstr "")) 512 with
      | error e => simp [chat, h1, h2, hc]
      | ok c => simp [chat, h1, h2, hc]

/-- C3: with no credential configured (`openai.api_key` falsy), a
validated `/stt` request, a `/chat` request with truthy text, and a
validated `/nova` request all answer 500 `no_api_key`, while `/tts`
with truthy text still answers 200 with the synthesized MP3: the `tts`
handler never consults the credential. -/
theorem no_api_key_uniform (req : MultipartReq) (fp : FilePart)
    (body : Option (List (String × JVal))) (t : JVal) (b : Bytes)
    (transcribe : Bytes → Except String (List (String × JVal)))
    (chatP : JVal → JVal → Nat → Except String String)
    (synth : JVal → JVal → Except String Bytes)
    (sttTok ttsTok upTok synthTok : String) (rmFail : FPath → Bool) (fs : FSt)
    (hf : assocLookup req.files "file" = some fp) (hn : fp.filename ≠ "")
    (hrm1 : rmFail (pathJoin UPLOAD_DIR (sttTok ++ "_" ++ fp.filename)) = false)
    (hrm2 : rmFail (pathJoin UPLOAD_DIR (upTok ++ "_" ++ fp.filename)) = false)
    (ht : assocLookup (body.getD []) "text" = some t) (htr : truthy t = true)
    (hsy : synth t (pyGet (body.getD []) "lang" (JVal.jstr "en")) = Except.ok b) :
    (stt req "" transcribe sttTok rmFail fs).1 =
      HOut.resp ⟨500,
        errBody "no_api_key" "OPENAI_API_KEY not configured on server.", []⟩
  ∧ (chat body "" chatP fs).1 =
      HOut.resp ⟨500, errBody "no_api_key" "OPENAI_API_KEY not configured.", []⟩
  ∧ (nova_pipeline req "" transcribe chatP synth upTok synthTok rmFail fs).1 =
      HOut.resp ⟨500, errBody "no_api_key" "OPENAI_API_KEY not configured.", []⟩
  ∧ (tts body synth ttsTok fs).1 =
      HOut.resp ⟨200, Body.file b,
        [("Content-Type", "audio/mpeg"),
          ("X-Reply-Filename", "g" ++ "_" ++ ttsTok ++ ".mp3")]⟩ := by
  have htne : t ≠ JVal.jstr "" := by
    intro he
    subst he
    simp [truthy] at htr
  refine ⟨?_, ?_, ?_, ?_⟩
  · simp [stt, save_no_exts req fp sttTok fs hf hn,
      osRemove_ok rmFail _ _ (fsHas_write_self fs _ fp.content) hrm1]
  · simp [chat, pyGet, ht, htne]
  · simp [nova_pipeline, save_no_exts req fp upTok fs hf hn,
      osRemove_ok rmFail _ _ (fsHas_write_self fs _ fp.content) hrm2]
  · have hsy2 : synth t ((assocLookup (body.getD []) "lang").getD (JVal.jstr "en")) =
        Except.ok b := hsy
    simp [tts, pyGet, ht, htr, text_to_speech_file, hsy2, fsGet_write_self]

theorem no_api_key_uniform_w :
    (stt ⟨[("file", ⟨"a.wav", "A"⟩)]⟩ ""
        (fun _ => Except.ok [("text", JVal.jstr "hi")]) "t1" (fun _ => false) []).1 =
      HOut.resp ⟨500,
        errBody "no_api_key" "OPENAI_API_KEY not configured on server.", []⟩
  ∧ (chat (some [("text", JVal.jstr "hello")]) ""
        (fun _ _ _ => Except.ok "yo") []).1 =
      HOut.resp ⟨500, errBody "no_api_key" "OPENAI_API_KEY not configured.", []⟩
  ∧ (nova_pipeline ⟨[("file", ⟨"a.wav", "A"⟩)]⟩ ""
        (fun _ => Except.ok [("text", JVal.jstr "hi")])
        (fun _ _ _ => Except.ok "yo") (fun _ _ => Except.ok "MP3")
        "t2" "t3" (fun _ => false) []).1 =
      HOut.resp ⟨500, errBody "no_api_key" "OPENAI_API_KEY not configured.", []⟩
  ∧ (tts (some [("text", JVal.jstr "hello")]) (fun _ _ => Except.ok "MP3")
        "t4" []).1 =
      HOut.resp ⟨200, Body.file "MP3",
        [("Content-Type", "audio/mpeg"),
          ("X-Reply-Filename", "g" ++ "_" ++ "t4" ++ ".mp3")]⟩ :=
  no_api_key_uniform ⟨[("file", ⟨"a.wav", "A"⟩)]⟩ ⟨"a.wav", "A"⟩
    (some [("text", JVal.jstr "hello")]) (JVal.jstr "hello") "MP3"
    (fun _ => Except.ok [("text", JVal.jstr "hi")])
    (fun _ _ _ => Except.ok "yo") (fun _ _ => Except.ok "MP3")
    "t1" "t4" "t2" "t3" (fun _ => false) []
    rfl (by decide) rfl rfl rfl (by decide) rfl

/-- C9: `/tts` answers 400 `no_text` exactly when the (defaulted)
`text` value of the body is Python-falsy — absent, null, false, 0 or
the empty string — while `/chat` answers 400 `no_text` exactly when
that value equals the empty string (so absent or `""`); in particular a
`/chat` body with `text: null` is not rejected, and the null value is
forwarded as the user message to the chat provider. -/
theorem falsy_text_handling (body : Option (List (String × JVal)))
    (apiKey : String) (chatP : JVal → JVal → Nat → Except String String)
    (synth : JVal → JVal → Except String Bytes) (tok : String) (fs : FSt) :
    ((tts body synth tok fs).1 =
        HOut.resp ⟨400, Body.jsonObj [("error", JVal.jstr "no_text")], []⟩
      ↔ truthy (pyGet (body.getD []) "text" (JVal.jstr "")) = false)
  ∧ ((chat body apiKey chatP fs).1 =
        HOut.resp ⟨400, Body.jsonObj [("error", JVal.jstr "no_text")], []⟩
      ↔ pyGet (body.getD []) "text" (JVal.jstr "") = JVal.jstr "")
  ∧ (∀ c, assocLookup (body.getD []) "text" = some JVal.jnull → apiKey ≠ "" →
      chatP (pyGet (body.getD []) "system"
          (JVal.jstr "You are Nova, a calm and friendly AI assistant."))
        JVal.jnull 512 = Except.ok c →
      (chat body apiKey chatP fs).1 =
        HOut.resp ⟨200, Body.jsonObj [("reply", JVal.jstr (pyStrip c))], []⟩) := by
  refine ⟨?_, ?_, ?_⟩
  · by_cases ht : truthy (pyGet (body.getD []) "text" (JVal.jstr "")) = false
    · simp [tts, ht]
    · cases hsy : synth (pyGet (body.getD []) "text" (JVal.jstr ""))
          (pyGet (body.getD []) "lang" (JVal.jstr "en")) with
      | error e => simp [tts, ht, text_to_speech_file, hsy]
      | ok b => simp [tts, ht, text_to_speech_file, hsy]
  · by_cases h1 : pyGet (body.getD []) "text" (JVal.jstr "") = JVal.jstr ""
    · simp [chat, h1]
    · by_cases h2 : apiKey = ""
      · simp [chat, h1, h2]
      · cases hc : chatP
            (pyGet (body.getD []) "system"
              (JVal.jstr "You are Nova, a calm and friendly AI assistant."))
            (pyGet (body.getD []) "text" (JVal.jstr "")) 512 with
        | error e => simp [chat, h1, h2, hc]
        | ok c => simp [chat, h1, h2, hc]
  · intro c hlk hk hcp
    have hcp2 : chatP ((assocLookup (body.getD []) "system").getD
        (JVal.jstr "You are Nova, a calm and friendly AI assistant."))
        JVal.jnull 512 = Except.ok c := hcp
    simp [chat, pyGet, hlk, hk, hcp2]

theorem falsy_text_handling_w :
    ((tts (some [("text", JVal.jnull)]) (fun _ _ => Except.ok "M") "t" []).1 =
        HOut.resp ⟨400, Body.jsonObj [("error", JVal.jstr "no_text")], []⟩
      ↔ truthy (pyGet [("text", JVal.jnull)] "text" (JVal.jstr "")) = false)
  ∧ ((chat (some [("text", JVal.jnull)]) "key"
        (fun _ _ _ => Except.ok " ok ") []).1 =
        HOut.resp ⟨400, Body.jsonObj [("error", JVal.jstr "no_text")], []⟩
      ↔ pyGet [("text", JVal.jnull)] "text" (JVal.jstr "") = JVal.jstr "")
  ∧ (chat (some [("text", JVal.jnull)]) "key"
        (fun _ _ _ => Except.ok " ok ") []).1 =
      HOut.resp ⟨200, Body.jsonObj [("reply", JVal.jstr "ok")], []⟩ := by
  have h := falsy_text_handling (some [("text", JVal.jnull)]) "key"
    (fun _ _ _ => Except.ok " ok ") (fun _ _ => Except.ok "M") "t" []
  exact ⟨h.1, h.2.1, h.2.2 " ok " rfl (by decide) rfl⟩

/-- C4: for a validated `/nova` request with a configured credential, a
failure of the transcription call, of the chat call, or of the
synthesis step each yields exactly the 500 response whose body carries
only `error = pipeline_failed` and the provider's message as `detail` —
in particular no transcript or chat reply reaches the client. -/
theorem nova_no_partial_results (req : MultipartReq) (fp : FilePart)
    (apiKey e : String)
    (transcribe : Bytes → Except String (List (String × JVal)))
    (chatP : JVal → JVal → Nat → Except String String)
    (synth : JVal → JVal → Except String Bytes)
    (upTok synthTok : String) (rmFail : FPath → Bool) (fs : FSt)
    (hf : assocLookup req.files "file" = some fp) (hn : fp.filename ≠ "")
    (hk : apiKey ≠ "") :
    (transcribe fp.content = Except.error e →
      (nova_pipeline req apiKey transcribe chatP synth upTok synthTok rmFail fs).1 =
        HOut.resp ⟨500, errBody "pipeline_failed" e, []⟩)
  ∧ (∀ d, transcribe fp.content = Except.ok d →
      chatP novaSystem (nova_extract d) 512 = Except.error e →
      (nova_pipeline req apiKey transcribe chatP synth upTok synthTok rmFail fs).1 =
        HOut.resp ⟨500, errBody "pipeline_failed" e, []⟩)
  ∧ (∀ d c, transcribe fp.content = Except.ok d →
      chatP novaSystem (nova_extract d) 512 = Except.ok c →
      synth (JVal.jstr (pyStrip c)) (JVal.jstr "en") = Except.error e →
      (nova_pipeline req apiKey transcribe chatP synth upTok synthTok rmFail fs).1 =
        HOut.resp ⟨500, errBody "pipeline_failed" e, []⟩) := by
  have hsave := save_no_exts req fp upTok fs hf hn
  refine ⟨?_, ?_, ?_⟩
  · intro h1
    simp [nova_pipeline, hsave, hk, novaAttempt, fsGet_write_self, h1]
  · intro d h1 h2
    simp [nova_pipeline, hsave, hk, novaAttempt, fsGet_write_self, h1, h2]
  · intro d c h1 h2 h3
    simp [nova_pipeline, hsave, hk, novaAttempt, fsGet_write_self, h1, h2,
      text_to_speech_file, h3]

theorem nova_no_partial_results_w :
    (nova_pipeline ⟨[("file", ⟨"a.wav", "A"⟩)]⟩ "key"
        (fun _ => Except.error "stt down") (fun _ _ _ => Except.ok "hi")
        (fun _ _ => Except.ok "M") "u" "s" (fun _ => false) []).1 =
      HOut.resp ⟨500, errBody "pipeline_failed" "stt down", []⟩
  ∧ (nova_pipeline ⟨[("file", ⟨"a.wav", "A"⟩)]⟩ "key"
        (fun _ => Except.ok [("text", JVal.jstr "hello")])
        (fun _ _ _ => Except.error "chat down")
        (fun _ _ => Except.ok "M") "u" "s" (fun _ => false) []).1 =
      HOut.resp ⟨500, errBody "pipeline_failed" "chat down", []⟩
  ∧ (nova_pipeline ⟨[("file", ⟨"a.wav", "A"⟩)]⟩ "key"
        (fun _ => Except.ok [("text", JVal.jstr "hello")])
        (fun _ _ _ => Except.ok "hi")
        (fun _ _ => Except.error "tts down") "u" "s" (fun _ => false) []).1 =
      HOut.resp ⟨500, errBody "pipeline_failed" "tts down", []⟩ :=
  ⟨(nova_no_partial_results ⟨[("file", ⟨"a.wav", "A"⟩)]⟩ ⟨"a.wav", "A"⟩
      "key" "stt down" (fun _ => Except.error "stt down")
      (fun _ _ _ => Except.ok "hi") (fun _ _ => Except.ok "M")
      "u" "s" (fun _ => false) [] rfl (by decide) (by decide)).1 rfl,
   (nova_no_partial_results ⟨[("file", ⟨"a.wav", "A"⟩)]⟩ ⟨"a.wav", "A"⟩
      "key" "chat down" (fun _ => Except.ok [("text", JVal.jstr "hello")])
      (fun _ _ _ => Except.error "chat down") (fun _ _ => Except.ok "M")
      "u" "s" (fun _ => false) [] rfl (by decide) (by decide)).2.1
      [("text", JVal.jstr "hello")] rfl rfl,
   (nova_no_partial_results ⟨[("file", ⟨"a.wav", "A"⟩)]⟩ ⟨"a.wav", "A"⟩
      "key" "tts down" (fun _ => Except.ok [("text", JVal.jstr "hello")])
      (fun _ _ _ => Except.ok "hi") (fun _ _ => Except.error "tts down")
      "u" "s" (fun _ => false) [] rfl (by decide) (by decide)).2.2
      [("text", JVal.jstr "hello")] "hi" rfl rfl rfl⟩

/-- C2 counterexample: with a configured credential, a validated upload
and a provider response containing neither a `text` nor a `transcript`
field, `/stt` responds 200 with JSON null as the `text` value — not
the empty string the claim requires. -/
theorem stt_default_null_counterexample :
    (stt ⟨[("file", ⟨"a.wav", "A"⟩)]⟩ "key" (fun _ => Except.ok []) "t"
        (fun _ => false) []).1 =
      HOut.resp ⟨200, Body.jsonObj [("text", JVal.jnull)], []⟩
  ∧ JVal.jnull ≠ JVal.jstr "" :=
  ⟨by decide, by decide⟩

/-- C2 amended: both endpoints extract the `text` field when it is
present and truthy; when it is absent or falsy, `/stt` extracts the raw
`transcript` value (JSON null when that field is absent) while `/nova`
extracts `transcript` only when truthy and otherwise defaults to the
empty string; `/stt` responds 200 with its extracted value as the
`text` entry. -/
theorem extract_rule_amended (d : List (String × JVal)) (req : MultipartReq)
    (fp : FilePart) (apiKey : String)
    (transcribe : Bytes → Except String (List (String × JVal)))
    (tok : String) (rmFail : FPath → Bool) (fs : FSt)
    (hf : assocLookup req.files "file" = some fp) (hn : fp.filename ≠ "")
    (hk : apiKey ≠ "") (htr : transcribe fp.content = Except.ok d)
    (hrm : rmFail (pathJoin UPLOAD_DIR (tok ++ "_" ++ fp.filename)) = false) :
    (truthy (pyGet d "text" JVal.jnull) = true →
      stt_extract d = pyGet d "text" JVal.jnull
      ∧ nova_extract d = pyGet d "text" JVal.jnull)
  ∧ (truthy (pyGet d "text" JVal.jnull) = false →
      stt_extract d = pyGet d "transcript" JVal.jnull)
  ∧ (truthy (pyGet d "text" JVal.jnull) = false →
      truthy (pyGet d "transcript" JVal.jnull) = true →
      nova_extract d = pyGet d "transcript" JVal.jnull)
  ∧ (truthy (pyGet d "text" JVal.jnull) = false →
      truthy (pyGet d "transcript" JVal.jnull) = false →
      nova_extract d = JVal.jstr "")
  ∧ (stt req apiKey transcribe tok rmFail fs).1 =
      HOut.resp ⟨200, Body.jsonObj [("text", stt_extract d)], []⟩ := by
  refine ⟨?_, ?_, ?_, ?_, ?_⟩
  · intro h
    simp only [pyGet] at h
    exact ⟨by simp [stt_extract, pyGet, h],
      by simp [nova_extract, pyOr, pyGet, h]⟩
  · intro h
    simp only [pyGet] at h
    simp [stt_extract, pyGet, h]
  · intro h1 h2
    simp only [pyGet] at h1 h2
    simp [nova_extract, pyOr, pyGet, h1, h2]
  · intro h1 h2
    simp only [pyGet] at h1 h2
    simp [nova_extract, pyOr, pyGet, h1, h2]
  · simp [stt, save_no_exts req fp tok fs hf hn, hk, fsGet_write_self, htr,
      osRemove_ok rmFail _ _ (fsHas_write_self fs _ fp.content) hrm]

theorem extract_rule_amended_w :
    stt_extract [("transcript", JVal.jstr "Hi")] =
      pyGet [("transcript", JVal.jstr "Hi")] "transcript" JVal.jnull
  ∧ nova_extract [("transcript", JVal.jstr "Hi")] =
      pyGet [("transcript", JVal.jstr "Hi")] "transcript" JVal.jnull
  ∧ (stt ⟨[("file", ⟨"a.wav", "A"⟩)]⟩ "key"
        (fun _ => Except.ok [("transcript", JVal.jstr "Hi")]) "t"
        (fun _ => false) []).1 =
      HOut.resp ⟨200,
        Body.jsonObj [("text", stt_extract [("transcript", JVal.jstr "Hi")])], []⟩ := by
  have h := extract_rule_amended [("transcript", JVal.jstr "Hi")]
    ⟨[("file", ⟨"a.wav", "A"⟩)]⟩ ⟨"a.wav", "A"⟩ "key"
    (fun _ => Except.ok [("transcript", JVal.jstr "Hi")]) "t"
    (fun _ => false) [] rfl (by decide) (by decide) rfl rfl
  exact ⟨h.2.1 (by decide), h.2.2.1 (by decide) (by decide), h.2.2.2.2⟩

/-- C8: after a successful `/tts` response the synthesized MP3 file is
still on disk with the synthesized bytes, and after a successful
`/nova` response the synthesized MP3 is still on disk (the `finally`
cleanup touches only the uploaded audio path): neither handler deletes
its synthesis output. -/
theorem mp3_retained (body : Option (List (String × JVal)))
    (req : MultipartReq) (fp : FilePart) (apiKey : String)
    (transcribe : Bytes → Except String (List (String × JVal)))
    (chatP : JVal → JVal → Nat → Except String String)
    (synth : JVal → JVal → Except String Bytes)
    (ttsTok upTok synthTok : String) (rmFail : FPath → Bool) (fs : FSt)
    (d : List (String × JVal)) (c : String) (b1 b2 : Bytes)
    (htt : truthy (pyGet (body.getD []) "text" (JVal.jstr "")) = true)
    (hs1 : synth (pyGet (body.getD []) "text" (JVal.jstr ""))
      (pyGet (body.getD []) "lang" (JVal.jstr "en")) = Except.ok b1)
    (hf : assocLookup req.files "file" = some fp) (hn : fp.filename ≠ "")
    (hk : apiKey ≠ "") (htr : transcribe fp.content = Except.ok d)
    (hch : chatP novaSystem (nova_extract d) 512 = Except.ok c)
    (hs2 : synth (JVal.jstr (pyStrip c)) (JVal.jstr "en") = Except.ok b2)
    (hne : pathJoin UPLOAD_DIR ("reply" ++ "_" ++ synthTok ++ ".mp3") ≠
      pathJoin UPLOAD_DIR (upTok ++ "_" ++ fp.filename)) :
    fsGet (tts body synth ttsTok fs).2
        (pathJoin UPLOAD_DIR ("g" ++ "_" ++ ttsTok ++ ".mp3")) = some b1
  ∧ fsGet (nova_pipeline req apiKey transcribe chatP synth upTok synthTok rmFail fs).2
        (pathJoin UPLOAD_DIR ("reply" ++ "_" ++ synthTok ++ ".mp3")) = some b2 := by
  constructor
  · simp only [pyGet] at htt
    have hs1b : synth ((assocLookup (body.getD []) "text").getD (JVal.jstr ""))
        ((assocLookup (body.getD []) "lang").getD (JVal.jstr "en")) =
        Except.ok b1 := hs1
    simp [tts, pyGet, htt, text_to_speech_file, hs1b, fsGet_write_self]
  · have hsave := save_no_exts req fp upTok fs hf hn
    have step1 :
        (nova_pipeline req apiKey transcribe chatP synth upTok synthTok rmFail fs).2 =
        cleanupSwallow rmFail
          (fsWrite
            (fsWrite fs (pathJoin UPLOAD_DIR (upTok ++ "_" ++ fp.filename)) fp.content)
            (pathJoin UPLOAD_DIR ("reply" ++ "_" ++ synthTok ++ ".mp3")) b2)
          (pathJoin UPLOAD_DIR (upTok ++ "_" ++ fp.filename)) := by
      simp [nova_pipeline, hsave, hk, novaAttempt, fsGet_write_self, htr, hch,
        text_to_speech_file, hs2]
    rw [step1,
      cleanupSwallow_get_ne rmFail _ (pathJoin UPLOAD_DIR (upTok ++ "_" ++ fp.filename))
        (pathJoin UPLOAD_DIR ("reply" ++ "_" ++ synthTok ++ ".mp3")) hne]
    exact fsGet_write_self _ _ _

theorem mp3_retained_w :
    fsGet (tts (some [("text", JVal.jstr "hello")]) (fun _ _ => Except.ok "M1")
        "t4" []).2
      (pathJoin UPLOAD_DIR ("g" ++ "_" ++ "t4" ++ ".mp3")) = some "M1"
  ∧ fsGet (nova_pipeline ⟨[("file", ⟨"a.wav", "A"⟩)]⟩ "key"
        (fun _ => Except.ok [("text", JVal.jstr "hi")])
        (fun _ _ _ => Except.ok "yo") (fun _ _ => Except.ok "M1")
        "u1" "s1" (fun _ => false) []).2
      (pathJoin UPLOAD_DIR ("reply" ++ "_" ++ "s1" ++ ".mp3")) = some "M1" :=
  mp3_retained (some [("text", JVal.jstr "hello")]) ⟨[("file", ⟨"a.wav", "A"⟩)]⟩
    ⟨"a.wav", "A"⟩ "key" (fun _ => Except.ok [("text", JVal.jstr "hi")])
    (fun _ _ _ => Except.ok "yo") (fun _ _ => Except.ok "M1")
    "t4" "u1" "s1" (fun _ => false) [] [("text", JVal.jstr "hi")] "yo" "M1" "M1"
    (by decide) rfl rfl (by decide) (by decide) rfl rfl rfl (by decide)

/-- C1 counterexample: on the success path of `/stt` with an OS that
rejects the deletion, the unguarded `os.remove` raises: the deletion
error escapes the handler instead of being swallowed, and the uploaded
temp file is still on disk afterwards — refuting both the
file-never-remains part and the errors-are-swallowed part of the claim
for `/stt`. -/
theorem cleanup_error_surfaces_counterexample :
    (stt ⟨[("file", ⟨"a.wav", "A"⟩)]⟩ "key"
        (fun _ => Except.ok [("text", JVal.jstr "hi")]) "t"
        (fun _ => true) []).1 =
      HOut.raised "OSError while deleting"
  ∧ fsHas (stt ⟨[("file", ⟨"a.wav", "A"⟩)]⟩ "key"
        (fun _ => Except.ok [("text", JVal.jstr "hi")]) "t"
        (fun _ => true) []).2
      (pathJoin UPLOAD_DIR ("t" ++ "_" ++ "a.wav")) = true :=
  ⟨by decide, by decide⟩

/-- C1 amended: when the OS permits deletion of the saved upload path,
every `/stt` and `/nova` run on a validated upload ends with the
uploaded temp file absent from disk and with an HTTP response (no
escaped exception), whatever the credential and the providers do; and
`/nova`'s `finally` cleanup swallows deletion errors, so with a
configured credential `/nova` produces an HTTP response for every
deletion-failure policy.  (On `/stt`'s three exit paths and on
`/nova`'s missing-credential path the deletion is unguarded, so there a
deletion error escapes — see the counterexample.) -/
theorem cleanup_amended (req : MultipartReq) (fp : FilePart) (apiKey : String)
    (transcribe : Bytes → Except String (List (String × JVal)))
    (chatP : JVal → JVal → Nat → Except String String)
    (synth : JVal → JVal → Except String Bytes)
    (tok synthTok : String) (rmFail : FPath → Bool) (fs : FSt)
    (hf : assocLookup req.files "file" = some fp) (hn : fp.filename ≠ "")
    (hrm : rmFail (pathJoin UPLOAD_DIR (tok ++ "_" ++ fp.filename)) = false) :
    fsHas (stt req apiKey transcribe tok rmFail fs).2
        (pathJoin UPLOAD_DIR (tok ++ "_" ++ fp.filename)) = false
  ∧ (∃ r, (stt req apiKey transcribe tok rmFail fs).1 = HOut.resp r)
  ∧ fsHas (nova_pipeline req apiKey transcribe chatP synth tok synthTok rmFail fs).2
        (pathJoin UPLOAD_DIR (tok ++ "_" ++ fp.filename)) = false
  ∧ (∃ r, (nova_pipeline req apiKey transcribe chatP synth tok synthTok rmFail fs).1 =
        HOut.resp r)
  ∧ (∀ rmF : FPath → Bool, apiKey ≠ "" →
      ∃ r, (nova_pipeline req apiKey transcribe chatP synth tok synthTok rmF fs).1 =
        HOut.resp r) := by
  have hsave := save_no_exts req fp tok fs hf hn
  have hosr := osRemove_ok rmFail
    (fsWrite fs (pathJoin UPLOAD_DIR (tok ++ "_" ++ fp.filename)) fp.content)
    (pathJoin UPLOAD_DIR (tok ++ "_" ++ fp.filename))
    (fsHas_write_self fs _ fp.content) hrm
  refine ⟨?_, ?_, ?_, ?_, ?_⟩
  · by_cases hk : apiKey = ""
    · simp [stt, hsave, hk, hosr, fsHas_remove_self]
    · cases htc : transcribe fp.content <;>
        simp [stt, hsave, hk, fsGet_write_self, htc, hosr, fsHas_remove_self]
  · by_cases hk : apiKey = ""
    · simp [stt, hsave, hk, hosr]
    · cases htc : transcribe fp.content <;>
        simp [stt, hsave, hk, fsGet_write_self, htc, hosr]
  · by_cases hk : apiKey = ""
    · simp [nova_pipeline, hsave, hk, hosr, fsHas_remove_self]
    · simp [nova_pipeline, hsave, hk, cleanupSwallow_gone, hrm]
  · by_cases hk : apiKey = ""
    · simp [nova_pipeline, hsave, hk, hosr]
    · simp [nova_pipeline, hsave, hk]
  · intro rmF hk
    simp [nova_pipeline, hsave, hk]

theorem cleanup_amended_w :
    fsHas (stt ⟨[("file", ⟨"a.wav", "A"⟩)]⟩ "key"
        (fun _ => Except.ok [("text", JVal.jstr "hi")]) "t1" (fun _ => false) []).2
      (pathJoin UPLOAD_DIR ("t1" ++ "_" ++ "a.wav")) = false
  ∧ (∃ r, (stt ⟨[("file", ⟨"a.wav", "A"⟩)]⟩ "key"
        (fun _ => Except.ok [("text", JVal.jstr "hi")]) "t1" (fun _ => false) []).1 =
      HOut.resp r)
  ∧ fsHas (nova_pipeline ⟨[("file", ⟨"a.wav", "A"⟩)]⟩ "key"
        (fun _ => Except.ok [("text", JVal.jstr "hi")])
        (fun _ _ _ => Except.ok "yo") (fun _ _ => Except.ok "M")
        "t1" "t2" (fun _ => false) []).2
      (pathJoin UPLOAD_DIR ("t1" ++ "_" ++ "a.wav")) = false
  ∧ (∃ r, (nova_pipeline ⟨[("file", ⟨"a.wav", "A"⟩)]⟩ "key"
        (fun _ => Except.ok [("text", JVal.jstr "hi")])
        (fun _ _ _ => Except.ok "yo") (fun _ _ => Except.ok "M")
        "t1" "t2" (fun _ => false) []).1 = HOut.resp r)
  ∧ (∃ r, (nova_pipeline ⟨[("file", ⟨"a.wav", "A"⟩)]⟩ "key"
        (fun _ => Except.ok [("text", JVal.jstr "hi")])
        (fun _ _ _ => Except.ok "yo") (fun _ _ => Except.ok "M")
        "t1" "t2" (fun _ => true) []).1 = HOut.resp r) := by
  have h := cleanup_amended ⟨[("file", ⟨"a.wav", "A"⟩)]⟩ ⟨"a.wav", "A"⟩ "key"
    (fun _ => Except.ok [("text", JVal.jstr "hi")])
    (fun _ _ _ => Except.ok "yo") (fun _ _ => Except.ok "M")
    "t1" "t2" (fun _ => false) [] rfl (by decide) rfl
  exact ⟨h.1, h.2.1, h.2.2.1, h.2.2.2.1, h.2.2.2.2 (fun _ => true) (by decide)⟩
